import Mathlib

/-!
Verification of the PaySentry x402 adapter core against its specification.

The definitions below are a shallow embedding of the TypeScript sources:
* `CircuitBreaker` (circuit-breaker.ts): `admitPhase`, `onSuccess`,
  `onFailure`, `execute` model the per-key breaker state machine.
* `PaySentryX402Adapter` (adapter.ts): `wrapVerify`, `wrapSettle`,
  `handleBeforeVerify`, `handleSettleFailure`, `classifyRetryability`
  model the facilitator-client wrapper and the lifecycle hooks, with the
  external collaborators (PolicyEngine, facilitator client) passed in as
  parameters and side effects reified as an explicit event trace.
* `TransactionMapper` (transaction-mapper.ts): `extractPayerAddress`,
  `extractAgent`, `inferDecimals`, `extractAmount`.

JavaScript numbers are modelled as `ℚ`, timestamps as `Nat`
milliseconds, thrown exceptions as `Except` values.
-/

namespace PaySentry

/-- The three circuit-breaker states (`CircuitBreakerState` in types.ts). -/
inductive CBState
  | closed
  | open_
  | halfOpen
deriving DecidableEq, Repr

/-- Configuration record `CircuitBreakerConfig` from types.ts. -/
structure CircuitBreakerConfig where
  failureThreshold : Nat
  recoveryTimeoutMs : Nat
  halfOpenMaxRequests : Nat
deriving DecidableEq, Repr

/-- The default configuration `DEFAULT_CONFIG` in circuit-breaker.ts. -/
def defaultCBConfig : CircuitBreakerConfig :=
  { failureThreshold := 5, recoveryTimeoutMs := 30000, halfOpenMaxRequests := 1 }

/-- The per-key `BreakerState` record in circuit-breaker.ts. -/
structure BreakerState where
  state : CBState
  failureCount : Nat
  successCount : Nat
  lastFailureTime : Nat
  halfOpenRequests : Nat
deriving DecidableEq, Repr

/-- State a fresh breaker key starts in (`getOrCreate`). -/
def initialBreaker : BreakerState :=
  { state := .closed, failureCount := 0, successCount := 0,
    lastFailureTime := 0, halfOpenRequests := 0 }

/-- Sets the state field (`transitionTo`; logging elided). -/
def transitionTo (b : BreakerState) (s : CBState) : BreakerState :=
  { b with state := s }

/--
The admission phase of `CircuitBreaker.execute` (everything before the
wrapped function runs).  Returns `(some remainingMs, b')` when a
`CircuitBreakerOpenError` with that `remainingMs` is thrown (the wrapped
function is not invoked) and `(none, b')` when the call is admitted;
`b'` is the breaker state after the admission checks, including the lazy
open → half-open transition and the half-open probe accounting.
-/
def admitPhase (cfg : CircuitBreakerConfig) (b : BreakerState) (now : Nat) :
    Option Int × BreakerState :=
  let step1 : Option Int × BreakerState :=
    if b.state = .open_ then
      let elapsed : Int := (now : Int) - (b.lastFailureTime : Int)
      if (cfg.recoveryTimeoutMs : Int) ≤ elapsed then
        (none, transitionTo b .halfOpen)
      else
        (some ((cfg.recoveryTimeoutMs : Int) - elapsed), b)
    else (none, b)
  match step1 with
  | (some r, b1) => (some r, b1)
  | (none, b1) =>
    if b1.state = .halfOpen then
      if cfg.halfOpenMaxRequests ≤ b1.halfOpenRequests then
        (some 0, b1)
      else
        (none, { b1 with halfOpenRequests := b1.halfOpenRequests + 1 })
    else (none, b1)

/-- Success path `CircuitBreaker.onSuccess`. -/
def onSuccess (b : BreakerState) : BreakerState :=
  let b1 :=
    if b.state = .halfOpen then
      { transitionTo b .closed with failureCount := 0, halfOpenRequests := 0 }
    else b
  { b1 with successCount := b1.successCount + 1 }

/-- Failure path `CircuitBreaker.onFailure`; `now` is the failure timestamp. -/
def onFailure (cfg : CircuitBreakerConfig) (b : BreakerState) (now : Nat) :
    BreakerState :=
  let b1 := { b with failureCount := b.failureCount + 1, lastFailureTime := now }
  if b1.state = .halfOpen then
    { transitionTo b1 .open_ with halfOpenRequests := 0 }
  else if b1.state = .closed then
    if cfg.failureThreshold ≤ b1.failureCount then transitionTo b1 .open_ else b1
  else b1

/-- Outcome of one `execute` call, as seen by the caller. -/
inductive ExecResult
  | rejectedOpen (remainingMs : Int)
  | ranSuccess
  | ranFailure
deriving DecidableEq, Repr

/--
`CircuitBreaker.execute` for one call: `now` is the time of the
admission check, `nowEnd` the time the wrapped function finishes, and
`fnSucceeds` tells whether the wrapped function returns or throws.
Returns what the caller observes together with the final breaker state.
-/
def execute (cfg : CircuitBreakerConfig) (b : BreakerState) (now nowEnd : Nat)
    (fnSucceeds : Bool) : ExecResult × BreakerState :=
  match admitPhase cfg b now with
  | (some r, b1) => (.rejectedOpen r, b1)
  | (none, b1) =>
    if fnSucceeds then (.ranSuccess, onSuccess b1)
    else (.ranFailure, onFailure cfg b1 nowEnd)

/--
Number of calls admitted (wrapped function invoked) among `n` back-to-back
admission attempts, none of which has completed yet; used to express the
half-open concurrent-probe bound.
-/
def admitCount (cfg : CircuitBreakerConfig) (b : BreakerState) (now : Nat) :
    Nat → Nat × BreakerState
  | 0 => (0, b)
  | n + 1 =>
    match admitPhase cfg b now with
    | (none, b1) =>
      let rest := admitCount cfg b1 now n
      (rest.1 + 1, rest.2)
    | (some _, b1) =>
      admitCount cfg b1 now n

/-! ## Adapter data model (types.ts, @paysentry/core shapes) -/

/-- Transaction status lifecycle values of `AgentTransaction`. -/
inductive TxStatus
  | pending
  | completed
  | rejected
  | failed
deriving DecidableEq, Repr

/-- The slice of `AgentTransaction` the adapter flow reads and writes. -/
structure Transaction where
  id : String
  agentId : String
  amount : ℚ
  currency : String
  status : TxStatus
deriving DecidableEq, Repr

/-- Values of `PolicyEvaluation.action`. -/
inductive PolicyAction
  | allow
  | deny
  | requireApproval
  | flag
deriving DecidableEq, Repr

/-- The `PolicyEvaluation` result produced by the PolicyEngine collaborator. -/
structure PolicyEvaluation where
  action : PolicyAction
  allowed : Bool
  reason : String
deriving DecidableEq, Repr

/-- Minimal `X402VerifyResponse`. -/
structure VerifyResponse where
  isValid : Bool
  invalidReason : Option String
  payer : Option String
deriving DecidableEq, Repr

/-- Minimal `X402SettleResponse`. -/
structure SettleResponse where
  success : Bool
  txHash : Option String
  network : Option String
deriving DecidableEq, Repr

/-- Provenance outcome values (`pass` / `fail`). -/
inductive Outcome
  | pass
  | fail
deriving DecidableEq, Repr

/--
Observable effects of one adapter operation, in program order.  Each
constructor names one call the adapter makes into a collaborator:
provenance recording, the external facilitator, the spend tracker,
the policy engine's spend counters, and alert evaluation.
-/
inductive Event
  | policyEvaluate
  | provIntent
  | provPolicyCheck (outcome : Outcome)
  | provExecution (outcome : Outcome)
  | provSettlement (outcome : Outcome) (retryable : Option Bool)
  | callVerify
  | callSettle
  | trackerRecord (status : TxStatus)
  | policyEngineRecord
  | alertsEvaluate
deriving DecidableEq, Repr

/-- Per-fingerprint context stored between stages (`X402TransactionContext`). -/
structure Context where
  transaction : Transaction
  policyResult : Option PolicyEvaluation
  verifyData : Option VerifyResponse
deriving DecidableEq, Repr

/-- Errors that propagate out of a wrapped verify/settle call. -/
inductive WrapError
  | breakerOpen (remainingMs : Int)
  | clientError (msg : String)
deriving DecidableEq, Repr

/-- Result of one wrapped facilitator-client operation. -/
structure WrapResult (α : Type) where
  result : Except WrapError α
  breaker : BreakerState
  events : List Event
  storedCtx : Option Context
deriving Repr

/--
`circuitBreaker.execute(key, fn)` as used by the wrapper, with the
external client call given as an `Except` value (`.error` = it throws).
The third component records whether the client function was invoked.
-/
def cbCall {α : Type} (cfg : CircuitBreakerConfig) (b : BreakerState)
    (now nowEnd : Nat) (client : Except String α) :
    Except WrapError α × BreakerState × Bool :=
  match admitPhase cfg b now with
  | (some r, b1) => (.error (.breakerOpen r), b1, false)
  | (none, b1) =>
    match client with
    | .ok a => (.ok a, onSuccess b1, true)
    | .error m => (.error (.clientError m), onFailure cfg b1 nowEnd, true)

/--
The `verify` method of `wrapFacilitatorClient` in adapter.ts.  The
PolicyEngine collaborator is the function `evalPolicy`, the external
facilitator's verify call the value `clientVerify`.
-/
def wrapVerify (abortOnPolicyDeny : Bool) (tx : Transaction)
    (evalPolicy : Transaction → PolicyEvaluation)
    (cfg : CircuitBreakerConfig) (b : BreakerState) (now nowEnd : Nat)
    (clientVerify : Except String VerifyResponse) : WrapResult VerifyResponse :=
  let pr := evalPolicy tx
  if !pr.allowed && abortOnPolicyDeny then
    { result := .ok { isValid := false,
                      invalidReason := some ("PaySentry policy denied: " ++ pr.reason),
                      payer := none },
      breaker := b,
      events := [.policyEvaluate, .provPolicyCheck .fail],
      storedCtx := none }
  else
    let ev0 : List Event :=
      [.policyEvaluate, .provPolicyCheck (if pr.allowed then .pass else .fail)]
    match cbCall cfg b now nowEnd clientVerify with
    | (.error e, b1, invoked) =>
      { result := .error e, breaker := b1,
        events := ev0 ++ (if invoked then [.callVerify] else []),
        storedCtx := none }
    | (.ok resp, b1, _) =>
      { result := .ok resp, breaker := b1,
        events := ev0 ++ [.callVerify,
          .provExecution (if resp.isValid then .pass else .fail)],
        storedCtx := some { transaction := tx, policyResult := some pr,
                            verifyData := some resp } }

/--
The context used by `settle`: the stored per-fingerprint context if
present, otherwise a fresh one synthesized from `mapToTransaction`
(its result is `freshTx`).
-/
def settleCtx (ctx? : Option Context) (freshTx : Transaction) : Context :=
  match ctx? with
  | some c => c
  | none => { transaction := freshTx, policyResult := none, verifyData := none }

/--
The `settle` method of `wrapFacilitatorClient` in adapter.ts.
`ctx?` is the stored context for the payment's fingerprint (from a prior
verify), `freshTx` the transaction `mapToTransaction` would synthesize,
`clientSettle` the external facilitator's settle call.  `storedCtx` is
the per-fingerprint context after the call (unchanged on the abort and
throw paths, which return or rethrow before the context update).
-/
def wrapSettle (abortOnPolicyDeny : Bool) (ctx? : Option Context)
    (freshTx : Transaction) (evalPolicy : Transaction → PolicyEvaluation)
    (cfg : CircuitBreakerConfig) (b : BreakerState) (now nowEnd : Nat)
    (clientSettle : Except String SettleResponse) : WrapResult SettleResponse :=
  let ctx := settleCtx ctx? freshTx
  let tx := ctx.transaction
  let pr := evalPolicy tx
  if !pr.allowed && abortOnPolicyDeny then
    { result := .ok { success := false, txHash := none, network := none },
      breaker := b,
      events := [.policyEvaluate, .provSettlement .fail none],
      storedCtx := ctx? }
  else
    match cbCall cfg b now nowEnd clientSettle with
    | (.error e, b1, invoked) =>
      { result := .error e, breaker := b1,
        events := [.policyEvaluate] ++ (if invoked then [.callSettle] else []),
        storedCtx := ctx? }
    | (.ok resp, b1, _) =>
      if resp.success then
        { result := .ok resp, breaker := b1,
          events := [.policyEvaluate, .callSettle, .trackerRecord .completed,
                     .policyEngineRecord, .provSettlement .pass none,
                     .alertsEvaluate],
          storedCtx := some { ctx with transaction := { tx with status := .completed } } }
      else
        { result := .ok resp, breaker := b1,
          events := [.policyEvaluate, .callSettle, .trackerRecord .failed,
                     .provSettlement .fail none],
          storedCtx := some { ctx with transaction := { tx with status := .failed } } }

/-! ## Lifecycle hook handlers (adapter.ts) -/

/-- What a before-hook returns to the x402 server: abort or proceed. -/
structure HookDecision where
  abort : Bool
  reason : Option String
deriving DecidableEq, Repr

/--
`handleBeforeVerify` in adapter.ts: the `onBeforeVerify` lifecycle hook.
`failOpen` is the `X402PaySentryConfig.failOpen` flag (documented in
types.ts as: internal errors abort the payment unless it is true);
`evalOutcome` is the result of `policyEngine.evaluate(tx)`, with
`.error` standing for an internal exception thrown during mapping-free
policy evaluation.  The exception is caught in the handler's `catch`
block, which only logs and returns without aborting.
-/
def handleBeforeVerify (abortOnPolicyDeny : Bool) (failOpen : Bool)
    (evalOutcome : Except String PolicyEvaluation) :
    HookDecision × List Event :=
  match evalOutcome with
  | .error _ =>
    ({ abort := false, reason := none }, [.provIntent])
  | .ok pr =>
    let evs : List Event :=
      [.provIntent, .provPolicyCheck (if pr.allowed then .pass else .fail)]
    if !pr.allowed && abortOnPolicyDeny then
      ({ abort := true,
         reason := some ("PaySentry policy denied: " ++ pr.reason) }, evs)
    else
      ({ abort := false, reason := none }, evs)

/-- Tests whether `pat` occurs as a contiguous run inside `l`. -/
def infixOf (pat : List Char) : List Char → Bool
  | [] => pat.isEmpty
  | c :: rest => pat.isPrefixOf (c :: rest) || infixOf pat rest

/-- Substring test: `pat` occurs inside `s` (JS `String.includes`). -/
def containsSub (s pat : String) : Bool :=
  infixOf pat.toList s.toList

/-- Character-wise lowercasing (JS `String.toLowerCase` on ASCII). -/
def toLowerStr (s : String) : String :=
  String.mk (s.data.map Char.toLower)

/--
`classifyRetryability` in adapter.ts.  `none` models a thrown value that
is not an `Error` instance; `some msg` an `Error` with message `msg`.
-/
def classifyRetryability (error : Option String) : Bool :=
  match error with
  | none => false
  | some message =>
    let msg := toLowerStr message
    if containsSub msg "timeout" || containsSub msg "econnreset"
        || containsSub msg "econnrefused" then true
    else if containsSub msg "network" || containsSub msg "socket"
        || containsSub msg "dns" then true
    else if containsSub msg "503" || containsSub msg "502"
        || containsSub msg "429" then true
    else if containsSub msg "401" || containsSub msg "403"
        || containsSub msg "invalid" then false
    else if containsSub msg "insufficient" || containsSub msg "denied" then false
    else false

/--
`handleSettleFailure` in adapter.ts: the `onSettleFailure` lifecycle
hook.  If a context exists for the fingerprint, the transaction is
marked failed, recorded in the spend tracker, and a `settlement: fail`
provenance entry carrying the retryability classification is written;
with no context only logging happens.  No retry of any kind is issued.
-/
def handleSettleFailure (ctx? : Option Context) (error : Option String) :
    List Event :=
  let retryable := classifyRetryability error
  match ctx? with
  | none => []
  | some _ => [.trackerRecord .failed, .provSettlement .fail (some retryable)]

/-! ## Transaction mapper (transaction-mapper.ts) -/

/--
The slice of `X402PaymentPayload` the mapper reads: `payer` and `from`,
each either absent or a string (possibly empty; JS truthiness treats the
empty string as absent).
-/
structure PaymentPayload where
  payer : Option String
  fromAddr : Option String
deriving Repr

/--
The slice of `X402PaymentRequirements` the mapper reads.
`maxAmountRequired` is `none` when the field is absent at runtime.
-/
structure PaymentRequirements where
  scheme : String
  maxAmountRequired : Option String
deriving Repr

/-- The slice of `X402PaySentryConfig` that agent resolution reads. -/
structure MapperConfig where
  resolveAgentId : Option (String → Except String String)
  defaultAgentId : Option String

/-- JS truthiness of an optional string field: a nonempty string. -/
def truthy : Option String → Option String
  | some s => if s = "" then none else some s
  | none => none

/-- Function `extractPayerAddress` in transaction-mapper.ts. -/
def extractPayerAddress (p : PaymentPayload) : Option String :=
  match truthy p.payer with
  | some s => some s
  | none => truthy p.fromAddr

/--
`extractAgent` in transaction-mapper.ts.  The custom resolver is tried
only when a payer address was extracted; a resolver exception falls back
to the payer address; with no payer address the configured default or
the sentinel is used.
-/
def extractAgent (p : PaymentPayload) (cfg : MapperConfig) : String :=
  match extractPayerAddress p, cfg.resolveAgentId with
  | some addr, some f =>
    match f addr with
    | .ok a => a
    | .error _ => addr
  | some addr, none => addr
  | none, _ => cfg.defaultAgentId.getD "unknown-agent"

/-- Function `inferDecimals` in transaction-mapper.ts. -/
def inferDecimals (scheme : String) : Nat :=
  let normalized := toLowerStr scheme
  if containsSub normalized "eth" || containsSub normalized "ether" then 18
  else 6

/--
`extractAmount` in transaction-mapper.ts.  `parseNum` models the JS
`Number(raw)` conversion followed by the `Number.isNaN` test: `none`
means the string does not parse as a number (NaN), `some q` the parsed
value; amounts are rationals.
-/
def extractAmount (parseNum : String → Option ℚ)
    (req : PaymentRequirements) : ℚ :=
  match req.maxAmountRequired with
  | none => 0
  | some raw =>
    if raw = "" then 0
    else
      match parseNum raw with
      | none => 0
      | some parsed => parsed / 10 ^ inferDecimals req.scheme

/-! ## Specification-side definitions -/

/--
Modelled from the spec: the first element of an ordered list of agent-id
sources that yields a value ("the first source in that order that yields
a value determines the result", spec §6).
-/
def firstSome : List (Option String) → Option String
  | [] => none
  | some a :: _ => some a
  | none :: rest => firstSome rest

/--
Modelled from the spec: the custom-resolver source yields a value
exactly when a payer address is extractable, a resolver is configured,
and the resolver returns rather than throws.
-/
def resolverSource (p : PaymentPayload) (cfg : MapperConfig) : Option String :=
  match extractPayerAddress p, cfg.resolveAgentId with
  | some addr, some f => (f addr).toOption
  | _, _ => none

/--
Modelled from the spec (§6, "Default agent resolution order"): custom
resolver function → payer identifier from payload → configured default →
the sentinel `unknown-agent`.
-/
def agentResolutionSpec (p : PaymentPayload) (cfg : MapperConfig) : String :=
  (firstSome [resolverSource p cfg, extractPayerAddress p,
    cfg.defaultAgentId, some "unknown-agent"]).getD "unknown-agent"

/--
Modelled from the spec (§7): the failure signals the spec classifies as
network-class (retryable), lowercased message substrings.
-/
def networkSignal (msg : String) : Bool :=
  containsSub msg "timeout" || containsSub msg "econnreset"
    || containsSub msg "econnrefused" || containsSub msg "network"
    || containsSub msg "socket" || containsSub msg "dns"
    || containsSub msg "503" || containsSub msg "502" || containsSub msg "429"

/--
Modelled from the spec (§7): the auth/validation/insufficient-funds
signals classified as non-retryable.
-/
def authSignal (msg : String) : Bool :=
  containsSub msg "401" || containsSub msg "403" || containsSub msg "invalid"
    || containsSub msg "insufficient" || containsSub msg "denied"

/-! ## Concrete fixtures for witnesses and counterexamples -/

/-- A breaker configuration with `failureThreshold = 2`. -/
def cfgT2 : CircuitBreakerConfig :=
  { failureThreshold := 2, recoveryTimeoutMs := 1000, halfOpenMaxRequests := 1 }

/-- Breaker after a failing call in the closed state. -/
def afterFail1 : BreakerState := (execute cfgT2 initialBreaker 0 0 false).2

/-- Breaker after that failure followed by a successful call (still closed). -/
def afterSuccess : BreakerState := (execute cfgT2 afterFail1 1 1 true).2

/-- Breaker after a single further failing call. -/
def afterFail2 : BreakerState := (execute cfgT2 afterSuccess 2 2 false).2

/-- An open breaker: 5 failures, the last at t = 1000 ms. -/
def openBreaker : BreakerState :=
  { state := .open_, failureCount := 5, successCount := 0,
    lastFailureTime := 1000, halfOpenRequests := 0 }

/-- A half-open breaker with no probe in flight. -/
def halfOpenBreaker : BreakerState :=
  { state := .halfOpen, failureCount := 5, successCount := 0,
    lastFailureTime := 1000, halfOpenRequests := 0 }

/-- A transaction of amount 45 USDC, as in the spec's end-to-end scenario. -/
def txDemo : Transaction :=
  { id := "tx_45", agentId := "agent-1", amount := 45, currency := "USDC",
    status := .pending }

/-- A PolicyEngine that requires approval (not allowed) for every transaction. -/
def denyEval : Transaction → PolicyEvaluation :=
  fun _ => { action := .requireApproval, allowed := false,
             reason := "amount 45 requires approval above 40" }

/-- A passing verify response from the external facilitator. -/
def verifyOkResp : VerifyResponse :=
  { isValid := true, invalidReason := none, payer := some "0xpayer" }

/-- A stored context whose verify stage passed. -/
def ctxVerified : Context :=
  { transaction := txDemo,
    policyResult := some { action := .allow, allowed := true, reason := "ok" },
    verifyData := some verifyOkResp }

/-- A PolicyEngine that allows every transaction. -/
def allowEval : Transaction → PolicyEvaluation :=
  fun _ => { action := .allow, allowed := true, reason := "ok" }

/-- A successful settle response from the external facilitator. -/
def settleOkResp : SettleResponse :=
  { success := true, txHash := some "0xh", network := some "base" }

/-- A number parser recognising the single literal the witness uses. -/
def demoParse : String → Option ℚ :=
  fun s => if s = "1500000" then some 1500000 else none

/-- Requirements for 1.5 USDC in base units under a USDC-like scheme. -/
def demoReq : PaymentRequirements :=
  { scheme := "exact-usdc", maxAmountRequired := some "1500000" }

/-! ## Helper lemmas -/

/--
In the half-open state, `n` back-to-back admission attempts admit at
most `halfOpenMaxRequests - halfOpenRequests` calls: each admission
increments the probe counter and keeps the state half-open, and once
the counter reaches the limit every further attempt is rejected.
-/
theorem admitCount_halfOpen_bound (cfg : CircuitBreakerConfig) (now : Nat) :
    ∀ (n : Nat) (b : BreakerState), b.state = .halfOpen →
      b.halfOpenRequests ≤ cfg.halfOpenMaxRequests →
      (admitCount cfg b now n).1 + b.halfOpenRequests ≤ cfg.halfOpenMaxRequests := by
  intro n
  induction n with
  | zero => intro b _ hle; simpa [admitCount] using hle
  | succ n ih =>
    intro b hs hle
    by_cases hfull : cfg.halfOpenMaxRequests ≤ b.halfOpenRequests
    · have hb : admitPhase cfg b now = (some 0, b) := by
        simp [admitPhase, hs, hfull]
      have := ih b hs hle
      simp only [admitCount, hb]
      omega
    · push_neg at hfull
      have hb : admitPhase cfg b now =
          (none, { b with halfOpenRequests := b.halfOpenRequests + 1 }) := by
        simp [admitPhase, hs, Nat.not_le.mpr hfull]
      have hrec := ih { b with halfOpenRequests := b.halfOpenRequests + 1 }
        (by simpa using hs) (by simpa using hfull)
      simp only [admitCount, hb]
      simp only at hrec
      omega

/-! ## Claim theorems -/

/--
C1 counterexample: with `failureThreshold = 2`, the call sequence
fail, success, fail in the closed state leaves `failureCount = 1` after
the success (the success does not reset the count, contradicting the
claim's "a successful call in the closed state resets the
consecutive-failure count") and the second failure — only one
consecutive failure since the last success — already opens the breaker
(contradicting "transitions to open exactly when failureThreshold
consecutive-since-last-success failures have accumulated").
-/
theorem closed_success_does_not_reset_failureCount :
    afterSuccess.state = CBState.closed ∧ afterSuccess.failureCount = 1 ∧
      afterFail2.state = CBState.open_ ∧ cfgT2.failureThreshold = 2 := by
  decide

/--
C1 (amended): while in the closed state each failing `execute` call
increments `failureCount`, the breaker transitions to open exactly when
the cumulative `failureCount` reaches `failureThreshold`, and a
successful call in the closed state leaves `failureCount` unchanged
(it only increments `successCount`); the count is cleared only by a
successful half-open probe or a manual reset.
-/
theorem closed_failure_accumulation (cfg : CircuitBreakerConfig)
    (b : BreakerState) (now nowEnd : Nat) (h : b.state = .closed) :
    (execute cfg b now nowEnd false).2.failureCount = b.failureCount + 1 ∧
    (execute cfg b now nowEnd false).2.state =
      (if cfg.failureThreshold ≤ b.failureCount + 1 then CBState.open_
       else .closed) ∧
    (execute cfg b now nowEnd true).2 =
      { b with successCount := b.successCount + 1 } := by
  have hadm : admitPhase cfg b now = (none, b) := by
    simp [admitPhase, h]
  refine ⟨?_, ?_, ?_⟩
  · simp only [execute, hadm]
    by_cases hth : cfg.failureThreshold ≤ b.failureCount + 1 <;>
      simp [onFailure, transitionTo, h, hth]
  · simp only [execute, hadm]
    by_cases hth : cfg.failureThreshold ≤ b.failureCount + 1 <;>
      simp [onFailure, transitionTo, h, hth]
  · simp only [execute, hadm]
    simp [onSuccess, h]

/-- C1 witness: the amended behaviour at a concrete closed breaker. -/
theorem closed_failure_accumulation_witness :
    (execute defaultCBConfig initialBreaker 5 5 false).2.failureCount =
      initialBreaker.failureCount + 1 ∧
    (execute defaultCBConfig initialBreaker 5 5 false).2.state =
      (if defaultCBConfig.failureThreshold ≤ initialBreaker.failureCount + 1
       then CBState.open_ else .closed) ∧
    (execute defaultCBConfig initialBreaker 5 5 true).2 =
      { initialBreaker with successCount := initialBreaker.successCount + 1 } :=
  closed_failure_accumulation defaultCBConfig initialBreaker 5 5 rfl

/--
C3: for an open breaker, while less than `recoveryTimeoutMs` has elapsed
since `lastFailureTime`, `execute` rejects with a
`CircuitBreakerOpenError` carrying the remaining cooldown and the
wrapped function is never invoked (and the stored state is untouched);
once the timeout has elapsed, the next call first transitions the
breaker to half-open (admission leaves it in the half-open state with
one probe accounted) and then actually executes the wrapped function —
the transition is driven lazily by that call.
-/
theorem open_rejects_until_recovery_then_halfOpen
    (cfg : CircuitBreakerConfig) (b : BreakerState) (now nowEnd : Nat)
    (s : Bool) (h : b.state = .open_) :
    ((now : Int) - (b.lastFailureTime : Int) < (cfg.recoveryTimeoutMs : Int) →
      execute cfg b now nowEnd s =
        (.rejectedOpen ((cfg.recoveryTimeoutMs : Int)
            - ((now : Int) - (b.lastFailureTime : Int))), b)) ∧
    ((cfg.recoveryTimeoutMs : Int) ≤ (now : Int) - (b.lastFailureTime : Int) →
      b.halfOpenRequests < cfg.halfOpenMaxRequests →
      admitPhase cfg b now =
        (none, { b with
                  state := .halfOpen
                  halfOpenRequests := b.halfOpenRequests + 1 }) ∧
      (execute cfg b now nowEnd s).1 =
        (if s then ExecResult.ranSuccess else .ranFailure)) := by
  constructor
  · intro hlt
    have hadm : admitPhase cfg b now =
        (some ((cfg.recoveryTimeoutMs : Int)
          - ((now : Int) - (b.lastFailureTime : Int))), b) := by
      simp [admitPhase, h, Int.not_le.mpr hlt]
    simp [execute, hadm]
  · intro hge hreq
    have hadm : admitPhase cfg b now =
        (none, { b with
                  state := .halfOpen
                  halfOpenRequests := b.halfOpenRequests + 1 }) := by
      simp [admitPhase, h, transitionTo, hge, Nat.not_le.mpr hreq]
    refine ⟨hadm, ?_⟩
    cases s <;> simp [execute, hadm]

/-- C3 witness: the open-state behaviour at a concrete breaker. -/
theorem open_rejects_until_recovery_then_halfOpen_witness :
    (execute defaultCBConfig openBreaker 2000 2000 true =
      (.rejectedOpen ((defaultCBConfig.recoveryTimeoutMs : Int)
          - ((2000 : Int) - (openBreaker.lastFailureTime : Int))), openBreaker)) ∧
    (admitPhase defaultCBConfig openBreaker 40000 =
      (none, { openBreaker with
                state := .halfOpen
                halfOpenRequests := openBreaker.halfOpenRequests + 1 }) ∧
     (execute defaultCBConfig openBreaker 40000 40000 true).1 =
       (if true then ExecResult.ranSuccess else .ranFailure)) :=
  ⟨(open_rejects_until_recovery_then_halfOpen defaultCBConfig
      openBreaker 2000 2000 true rfl).1 (by decide),
   (open_rejects_until_recovery_then_halfOpen defaultCBConfig
      openBreaker 40000 40000 true rfl).2 (by decide) (by decide)⟩

/--
C4: in the half-open state, a call is rejected (without invoking the
wrapped function) exactly when `halfOpenRequests` has reached
`halfOpenMaxRequests`, and back-to-back admissions never exceed the
limit; an admitted successful probe transitions the breaker to closed
and resets `failureCount` (and the probe counter) to 0; an admitted
failing probe transitions it back to open immediately and resets the
probe counter.
-/
theorem halfOpen_probe_semantics (cfg : CircuitBreakerConfig)
    (b : BreakerState) (now nowEnd : Nat) (h : b.state = .halfOpen) :
    (cfg.halfOpenMaxRequests ≤ b.halfOpenRequests →
      execute cfg b now nowEnd true = (.rejectedOpen 0, b) ∧
      execute cfg b now nowEnd false = (.rejectedOpen 0, b)) ∧
    (b.halfOpenRequests < cfg.halfOpenMaxRequests →
      (execute cfg b now nowEnd true).1 = ExecResult.ranSuccess ∧
      (execute cfg b now nowEnd true).2.state = CBState.closed ∧
      (execute cfg b now nowEnd true).2.failureCount = 0 ∧
      (execute cfg b now nowEnd true).2.halfOpenRequests = 0 ∧
      (execute cfg b now nowEnd false).1 = ExecResult.ranFailure ∧
      (execute cfg b now nowEnd false).2.state = CBState.open_ ∧
      (execute cfg b now nowEnd false).2.halfOpenRequests = 0) ∧
    (b.halfOpenRequests ≤ cfg.halfOpenMaxRequests →
      ∀ n, (admitCount cfg b now n).1 + b.halfOpenRequests ≤
        cfg.halfOpenMaxRequests) := by
  refine ⟨?_, ?_, ?_⟩
  · intro hfull
    have hadm : admitPhase cfg b now = (some 0, b) := by
      simp [admitPhase, h, hfull]
    constructor <;> simp [execute, hadm]
  · intro hroom
    have hadm : admitPhase cfg b now =
        (none, { b with halfOpenRequests := b.halfOpenRequests + 1 }) := by
      simp [admitPhase, h, Nat.not_le.mpr hroom]
    refine ⟨?_, ?_, ?_, ?_, ?_, ?_, ?_⟩ <;>
      simp [execute, hadm, onSuccess, onFailure, transitionTo, h]
  · intro hle n
    exact admitCount_halfOpen_bound cfg now n b h hle

/-- C4 witness: half-open probe behaviour at a concrete breaker. -/
theorem halfOpen_probe_semantics_witness :
    ((execute defaultCBConfig halfOpenBreaker 2000 2000 true).1 =
        ExecResult.ranSuccess ∧
      (execute defaultCBConfig halfOpenBreaker 2000 2000 true).2.state =
        CBState.closed ∧
      (execute defaultCBConfig halfOpenBreaker 2000 2000 true).2.failureCount = 0 ∧
      (execute defaultCBConfig halfOpenBreaker 2000 2000 true).2.halfOpenRequests = 0 ∧
      (execute defaultCBConfig halfOpenBreaker 2000 2000 false).1 =
        ExecResult.ranFailure ∧
      (execute defaultCBConfig halfOpenBreaker 2000 2000 false).2.state =
        CBState.open_ ∧
      (execute defaultCBConfig halfOpenBreaker 2000 2000 false).2.halfOpenRequests = 0) ∧
    (∀ n, (admitCount defaultCBConfig halfOpenBreaker 2000 n).1 +
        halfOpenBreaker.halfOpenRequests ≤
          defaultCBConfig.halfOpenMaxRequests) :=
  ⟨(halfOpen_probe_semantics defaultCBConfig halfOpenBreaker 2000 2000
      rfl).2.1 (by decide),
   (halfOpen_probe_semantics defaultCBConfig halfOpenBreaker 2000 2000
      rfl).2.2 (by decide)⟩

/--
C2: when policy evaluation throws an internal error during
`onBeforeVerify`, the handler's catch block swallows it and returns
without aborting, for every configuration — including the default
`failOpen = false`, whose documentation promises that internal errors
abort the payment.  The payment therefore proceeds to the external
collaborator: the code fails open, not default-deny as the spec and the
`failOpen` documentation state.
-/
theorem beforeVerify_internal_error_fails_open
    (abortOnPolicyDeny failOpen : Bool) (msg : String) :
    handleBeforeVerify abortOnPolicyDeny failOpen (.error msg) =
      ({ abort := false, reason := none }, [Event.provIntent]) :=
  rfl

/--
C5: under the default fail-closed configuration
(`abortOnPolicyDeny = true`), when the pre-verify policy evaluation is
not allowed, the wrapped `verify` returns an invalid response whose
reason cites the policy denial, records exactly a `policy_check: fail`
provenance entry, never invokes the external verify or settle
collaborator, and leaves the circuit breaker untouched.
-/
theorem verify_denied_aborts_before_facilitator
    (tx : Transaction) (evalPolicy : Transaction → PolicyEvaluation)
    (cfg : CircuitBreakerConfig) (b : BreakerState) (now nowEnd : Nat)
    (clientVerify : Except String VerifyResponse)
    (h : (evalPolicy tx).allowed = false) :
    (wrapVerify true tx evalPolicy cfg b now nowEnd clientVerify).result =
      .ok { isValid := false
            invalidReason :=
              some ("PaySentry policy denied: " ++ (evalPolicy tx).reason)
            payer := none } ∧
    (wrapVerify true tx evalPolicy cfg b now nowEnd clientVerify).events =
      [.policyEvaluate, .provPolicyCheck .fail] ∧
    Event.callVerify ∉
      (wrapVerify true tx evalPolicy cfg b now nowEnd clientVerify).events ∧
    Event.callSettle ∉
      (wrapVerify true tx evalPolicy cfg b now nowEnd clientVerify).events ∧
    (wrapVerify true tx evalPolicy cfg b now nowEnd clientVerify).breaker = b := by
  refine ⟨?_, ?_, ?_, ?_, ?_⟩ <;> simp [wrapVerify, h]

/-- C5 witness: a denied 45-USDC payment at a concrete configuration. -/
theorem verify_denied_aborts_before_facilitator_witness :
    (wrapVerify true txDemo denyEval defaultCBConfig initialBreaker 0 0
        (.ok verifyOkResp)).result =
      .ok { isValid := false
            invalidReason :=
              some ("PaySentry policy denied: " ++ (denyEval txDemo).reason)
            payer := none } ∧
    (wrapVerify true txDemo denyEval defaultCBConfig initialBreaker 0 0
        (.ok verifyOkResp)).events =
      [.policyEvaluate, .provPolicyCheck .fail] ∧
    Event.callVerify ∉
      (wrapVerify true txDemo denyEval defaultCBConfig initialBreaker 0 0
        (.ok verifyOkResp)).events ∧
    Event.callSettle ∉
      (wrapVerify true txDemo denyEval defaultCBConfig initialBreaker 0 0
        (.ok verifyOkResp)).events ∧
    (wrapVerify true txDemo denyEval defaultCBConfig initialBreaker 0 0
        (.ok verifyOkResp)).breaker = initialBreaker :=
  verify_denied_aborts_before_facilitator txDemo denyEval defaultCBConfig
    initialBreaker 0 0 (.ok verifyOkResp) rfl

/--
C6: every wrapped `settle` call re-runs the Policy Engine first (its
event trace begins with the policy evaluation, before any call into the
external collaborator), and when this second evaluation is not allowed
under the default fail-closed configuration, settlement aborts: the
result is an unsuccessful settle response, exactly a `settlement: fail`
provenance entry is recorded, the external settle collaborator is never
invoked, and the circuit breaker is untouched — regardless of any
stored context, in particular one whose verify passed.
-/
theorem settle_rechecks_policy_and_deny_blocks
    (ctx? : Option Context) (freshTx : Transaction)
    (evalPolicy : Transaction → PolicyEvaluation)
    (cfg : CircuitBreakerConfig) (b : BreakerState) (now nowEnd : Nat)
    (clientSettle : Except String SettleResponse) :
    (wrapSettle true ctx? freshTx evalPolicy cfg b now nowEnd
        clientSettle).events.head? = some Event.policyEvaluate ∧
    ((evalPolicy (settleCtx ctx? freshTx).transaction).allowed = false →
      (wrapSettle true ctx? freshTx evalPolicy cfg b now nowEnd
          clientSettle).result =
        .ok { success := false, txHash := none, network := none } ∧
      (wrapSettle true ctx? freshTx evalPolicy cfg b now nowEnd
          clientSettle).events =
        [.policyEvaluate, .provSettlement .fail none] ∧
      Event.callSettle ∉
        (wrapSettle true ctx? freshTx evalPolicy cfg b now nowEnd
          clientSettle).events ∧
      (wrapSettle true ctx? freshTx evalPolicy cfg b now nowEnd
          clientSettle).breaker = b) := by
  constructor
  · by_cases hal : (evalPolicy (settleCtx ctx? freshTx).transaction).allowed
    · rcases hcb : cbCall cfg b now nowEnd clientSettle with ⟨res, b1, invoked⟩
      cases res with
      | error e => simp [wrapSettle, hal, hcb]
      | ok resp =>
        by_cases hsu : resp.success <;> simp [wrapSettle, hal, hcb, hsu]
    · simp [wrapSettle, Bool.eq_false_iff.mpr hal]
  · intro hden
    refine ⟨?_, ?_, ?_, ?_⟩ <;> simp [wrapSettle, hden]

/--
C6 witness: a stored context whose verify passed, with the policy now
denying — settlement is still blocked before the collaborator.
-/
theorem settle_rechecks_policy_and_deny_blocks_witness :
    (wrapSettle true (some ctxVerified) txDemo denyEval defaultCBConfig
        initialBreaker 0 0 (.ok settleOkResp)).result =
      .ok { success := false, txHash := none, network := none } ∧
    (wrapSettle true (some ctxVerified) txDemo denyEval defaultCBConfig
        initialBreaker 0 0 (.ok settleOkResp)).events =
      [.policyEvaluate, .provSettlement .fail none] ∧
    Event.callSettle ∉
      (wrapSettle true (some ctxVerified) txDemo denyEval defaultCBConfig
        initialBreaker 0 0 (.ok settleOkResp)).events ∧
    (wrapSettle true (some ctxVerified) txDemo denyEval defaultCBConfig
        initialBreaker 0 0 (.ok settleOkResp)).breaker = initialBreaker :=
  (settle_rechecks_policy_and_deny_blocks (some ctxVerified) txDemo denyEval
    defaultCBConfig initialBreaker 0 0 (.ok settleOkResp)).2 rfl

/--
C7: when `settle` is invoked with no stored context for the payment's
fingerprint, a fresh transaction synthesized by the mapper is used and
the call proceeds exactly as it would with a stored context holding that
transaction: result, breaker state and event trace coincide, so a
missing context never causes an error by itself; in particular, with the
policy allowing, the breaker admitting and the collaborator succeeding,
the settle response is returned and the updated context stores the
synthesized transaction.
-/
theorem settle_missing_context_synthesizes
    (abortOnPolicyDeny : Bool) (freshTx junkTx : Transaction)
    (evalPolicy : Transaction → PolicyEvaluation)
    (cfg : CircuitBreakerConfig) (b : BreakerState) (now nowEnd : Nat)
    (clientSettle : Except String SettleResponse) :
    ((wrapSettle abortOnPolicyDeny none freshTx evalPolicy cfg b now nowEnd
        clientSettle).result =
      (wrapSettle abortOnPolicyDeny
        (some { transaction := freshTx, policyResult := none,
                verifyData := none })
        junkTx evalPolicy cfg b now nowEnd clientSettle).result ∧
     (wrapSettle abortOnPolicyDeny none freshTx evalPolicy cfg b now nowEnd
        clientSettle).breaker =
      (wrapSettle abortOnPolicyDeny
        (some { transaction := freshTx, policyResult := none,
                verifyData := none })
        junkTx evalPolicy cfg b now nowEnd clientSettle).breaker ∧
     (wrapSettle abortOnPolicyDeny none freshTx evalPolicy cfg b now nowEnd
        clientSettle).events =
      (wrapSettle abortOnPolicyDeny
        (some { transaction := freshTx, policyResult := none,
                verifyData := none })
        junkTx evalPolicy cfg b now nowEnd clientSettle).events) ∧
    ((evalPolicy freshTx).allowed = true → b.state = .closed →
      ∀ resp, clientSettle = .ok resp →
        (wrapSettle abortOnPolicyDeny none freshTx evalPolicy cfg b now nowEnd
            clientSettle).result = .ok resp ∧
        Event.callSettle ∈
          (wrapSettle abortOnPolicyDeny none freshTx evalPolicy cfg b now
            nowEnd clientSettle).events ∧
        ((wrapSettle abortOnPolicyDeny none freshTx evalPolicy cfg b now
            nowEnd clientSettle).storedCtx.map
          (fun c => c.transaction.id)) = some freshTx.id) := by
  constructor
  · by_cases hal : (evalPolicy freshTx).allowed
    · rcases hcb : cbCall cfg b now nowEnd clientSettle with ⟨res, b1, invoked⟩
      cases res with
      | error e => refine ⟨?_, ?_, ?_⟩ <;> simp [wrapSettle, settleCtx, hal, hcb]
      | ok resp =>
        by_cases hsu : resp.success <;>
          (refine ⟨?_, ?_, ?_⟩ <;> simp [wrapSettle, settleCtx, hal, hcb, hsu])
    · by_cases habort : abortOnPolicyDeny
      · refine ⟨?_, ?_, ?_⟩ <;>
          simp [wrapSettle, settleCtx, Bool.eq_false_iff.mpr hal, habort]
      · rcases hcb : cbCall cfg b now nowEnd clientSettle with ⟨res, b1, invoked⟩
        cases res with
        | error e =>
          refine ⟨?_, ?_, ?_⟩ <;>
            simp [wrapSettle, settleCtx, Bool.eq_false_iff.mpr hal,
              Bool.eq_false_iff.mpr habort, hcb]
        | ok resp =>
          by_cases hsu : resp.success <;>
            (refine ⟨?_, ?_, ?_⟩ <;>
              simp [wrapSettle, settleCtx, Bool.eq_false_iff.mpr hal,
                Bool.eq_false_iff.mpr habort, hcb, hsu])
  · intro hal hcl resp hresp
    have hadm : admitPhase cfg b now = (none, b) := by
      simp [admitPhase, hcl]
    have hcb : cbCall cfg b now nowEnd clientSettle =
        (.ok resp, onSuccess b, true) := by
      simp [cbCall, hadm, hresp]
    by_cases hsu : resp.success <;>
      (refine ⟨?_, ?_, ?_⟩ <;> simp [wrapSettle, settleCtx, hal, hcb, hsu])

/--
C7 witness: a context-free settle with an allowing policy, a closed
breaker and a succeeding collaborator proceeds and stores the
synthesized transaction.
-/
theorem settle_missing_context_synthesizes_witness :
    (wrapSettle true none txDemo allowEval defaultCBConfig initialBreaker 0 0
        (.ok settleOkResp)).result = .ok settleOkResp ∧
    Event.callSettle ∈
      (wrapSettle true none txDemo allowEval defaultCBConfig initialBreaker 0 0
        (.ok settleOkResp)).events ∧
    ((wrapSettle true none txDemo allowEval defaultCBConfig initialBreaker 0 0
        (.ok settleOkResp)).storedCtx.map
      (fun c => c.transaction.id)) = some txDemo.id :=
  (settle_missing_context_synthesizes true txDemo txDemo allowEval
    defaultCBConfig initialBreaker 0 0 (.ok settleOkResp)).2
    rfl rfl settleOkResp rfl

/--
C8: `classifyRetryability` returns true for every error whose lowercased
message contains a network-class signal (timeout, econnreset,
econnrefused, network, socket, dns, 503, 502, 429); it returns false for
every message containing an auth/validation/insufficient-funds signal
(401, 403, invalid, insufficient, denied) and no network signal, for
every non-Error value, and for every unrecognized message; and
`onSettleFailure` records exactly this flag in the `settlement: fail`
provenance entry while issuing no retry (no facilitator call appears in
its trace).
-/
theorem classifyRetryability_classification :
    (∀ msg : String, networkSignal (toLowerStr msg) = true →
      classifyRetryability (some msg) = true) ∧
    (∀ msg : String, networkSignal (toLowerStr msg) = false →
      authSignal (toLowerStr msg) = true →
      classifyRetryability (some msg) = false) ∧
    classifyRetryability none = false ∧
    (∀ msg : String, networkSignal (toLowerStr msg) = false →
      authSignal (toLowerStr msg) = false →
      classifyRetryability (some msg) = false) ∧
    (∀ (ctx : Context) (err : Option String),
      handleSettleFailure (some ctx) err =
        [.trackerRecord .failed,
         .provSettlement .fail (some (classifyRetryability err))] ∧
      Event.callSettle ∉ handleSettleFailure (some ctx) err ∧
      Event.callVerify ∉ handleSettleFailure (some ctx) err) := by
  refine ⟨?_, ?_, rfl, ?_, ?_⟩
  · intro msg h
    simp only [classifyRetryability]
    split_ifs with h1 h2 h3 <;> simp_all [networkSignal]
  · intro msg hn ha
    simp only [classifyRetryability]
    split_ifs with h1 h2 h3 h4 h5 <;> simp_all [networkSignal, authSignal]
  · intro msg hn ha
    simp only [classifyRetryability]
    split_ifs with h1 h2 h3 h4 h5 <;> simp_all [networkSignal, authSignal]
  · intro ctx err
    refine ⟨rfl, ?_, ?_⟩ <;> simp [handleSettleFailure]

/-- C8 witness: concrete classifications through the theorem. -/
theorem classifyRetryability_classification_witness :
    classifyRetryability (some "Connection TIMEOUT after 30s") = true ∧
    classifyRetryability (some "HTTP 502 Bad Gateway") = true ∧
    classifyRetryability (some "401 Unauthorized") = false ∧
    classifyRetryability (some "insufficient funds") = false ∧
    classifyRetryability (some "unrecognized failure") = false ∧
    handleSettleFailure (some ctxVerified) (some "401 Unauthorized") =
      [.trackerRecord .failed,
       .provSettlement .fail
         (some (classifyRetryability (some "401 Unauthorized")))] :=
  ⟨classifyRetryability_classification.1 "Connection TIMEOUT after 30s"
      (by decide),
   classifyRetryability_classification.1 "HTTP 502 Bad Gateway" (by decide),
   classifyRetryability_classification.2.1 "401 Unauthorized" (by decide)
      (by decide),
   classifyRetryability_classification.2.1 "insufficient funds" (by decide)
      (by decide),
   classifyRetryability_classification.2.2.2.1 "unrecognized failure"
      (by decide) (by decide),
   (classifyRetryability_classification.2.2.2.2 ctxVerified
      (some "401 Unauthorized")).1⟩

/--
C9: `extractAgent` resolves the agent identifier exactly as the ordered
chain custom-resolver → payer-identifier-from-payload → configured
default → sentinel `unknown-agent`: the first source that yields a value
determines the result (the custom resolver yields a value when a payer
address is extractable, a resolver is configured, and it returns rather
than throws).
-/
theorem extractAgent_resolution_order (p : PaymentPayload)
    (cfg : MapperConfig) :
    extractAgent p cfg = agentResolutionSpec p cfg := by
  rcases hpa : extractPayerAddress p with _ | addr <;>
    rcases hr : cfg.resolveAgentId with _ | f
  · rcases hd : cfg.defaultAgentId with _ | d <;>
      simp [extractAgent, agentResolutionSpec, resolverSource, firstSome,
        hpa, hr, hd]
  · rcases hd : cfg.defaultAgentId with _ | d <;>
      simp [extractAgent, agentResolutionSpec, resolverSource, firstSome,
        hpa, hr, hd]
  · simp [extractAgent, agentResolutionSpec, resolverSource, firstSome,
      hpa, hr]
  · rcases hf : f addr with e | a <;>
      simp [extractAgent, agentResolutionSpec, resolverSource, firstSome,
        hpa, hr, hf, Except.toOption]

/--
C10: `extractAmount` is total and never yields NaN or an error: it
returns 0 whenever `maxAmountRequired` is absent, empty, or fails to
parse as a number, and otherwise the parsed value divided by `10 ^ 18`
when the scheme name contains "eth" (hence also "ether") and by
`10 ^ 6` otherwise.
-/
theorem extractAmount_characterization (parseNum : String → Option ℚ)
    (req : PaymentRequirements) :
    (req.maxAmountRequired = none → extractAmount parseNum req = 0) ∧
    (req.maxAmountRequired = some "" → extractAmount parseNum req = 0) ∧
    (∀ raw, req.maxAmountRequired = some raw → raw ≠ "" →
      parseNum raw = none → extractAmount parseNum req = 0) ∧
    (∀ raw q, req.maxAmountRequired = some raw → raw ≠ "" →
      parseNum raw = some q →
      extractAmount parseNum req =
        q / 10 ^ (if containsSub (toLowerStr req.scheme) "eth"
            || containsSub (toLowerStr req.scheme) "ether" then 18 else 6)) := by
  refine ⟨?_, ?_, ?_, ?_⟩
  · intro h; simp [extractAmount, h]
  · intro h; simp [extractAmount, h]
  · intro raw h hne hp; simp [extractAmount, h, hne, hp]
  · intro raw q h hne hp
    simp [extractAmount, inferDecimals, h, hne, hp]

/-- C10 witness: 1500000 base units under a USDC-like scheme. -/
theorem extractAmount_characterization_witness :
    extractAmount demoParse demoReq =
      1500000 / 10 ^ (if containsSub (toLowerStr demoReq.scheme) "eth"
          || containsSub (toLowerStr demoReq.scheme) "ether" then 18 else 6) :=
  (extractAmount_characterization demoParse demoReq).2.2.2 "1500000" 1500000
    rfl (by decide) rfl

end PaySentry
